import Mathlib

/-!
Shallow embedding of `supertokens_python/recipe/session/session_class.py`
(the `Session` class: `assert_claims`, `merge_into_access_token_payload`,
`update_access_token_payload`, `remove_claim` and the state they touch),
together with theorems settling the specification claims about it.

Payloads (Python `Dict[str, Any]` holding JSON-like data) are modelled as
association lists of string keys and JSON values, which captures the
insertion order of a Python dict; all dictionary operations below mirror
Python dict semantics (a set replaces the first occurrence in place, keys
of a real dict are unique).
-/

namespace SupertokensSession

/-- JSON-like values stored in an access-token payload (`Any` restricted to
what `json.dumps` accepts): null, booleans, integers, strings, lists,
nested dicts. Python `None` is `JVal.null`; it doubles as the
delete-tombstone of `merge_into_access_token_payload`. -/
inductive JVal where
  | null : JVal
  | bool (b : Bool) : JVal
  | num (n : Int) : JVal
  | str (s : String) : JVal
  | arr (xs : List JVal) : JVal
  | obj (fields : List (String × JVal)) : JVal

/-- Python `v is None`: identity test against the `None` sentinel. -/
def isNull : JVal → Bool
  | JVal.null => true
  | _ => false

/-- A Python `Dict[str, Any]` payload, as an insertion-ordered association
list (Python dicts preserve insertion order). -/
abbrev Payload := List (String × JVal)

/-- Python dict lookup `d[k]` / `d.get(k)`: value of the first entry with
key `k` (a real dict has at most one). -/
def dictGet (d : Payload) (k : String) : Option JVal :=
  match d with
  | [] => none
  | (k', v) :: rest => if k' = k then some v else dictGet rest k

/-- Python dict assignment `d[k] = v`: replaces the value of an existing
key in place (keeping its position), else appends the new entry at the
end — exactly the order behaviour of a Python dict. -/
def dictSet (d : Payload) (k : String) (v : JVal) : Payload :=
  match d with
  | [] => [(k, v)]
  | (k', v') :: rest =>
      if k' = k then (k', v) :: rest else (k', v') :: dictSet rest k v

/-- Python `del d[k]`: removes the entry with key `k`. -/
def dictDel (d : Payload) (k : String) : Payload :=
  d.filter (fun kv => kv.1 ≠ k)

/-- Python `{**base, **upd}`: starts from `base` and assigns every entry
of `upd` in order. -/
def dictUpdate (base upd : Payload) : Payload :=
  upd.foldl (fun acc kv => dictSet acc kv.1 kv.2) base

/-- The loop of `merge_into_access_token_payload`:
`for k in update.keys(): if update[k] is None: del update_payload[k]`
(for a real dict, `update[k]` is the entry's own value). -/
def delNullKeys (d : Payload) (upd : Payload) : Payload :=
  upd.foldl (fun acc kv => if isNull kv.2 then dictDel acc kv.1 else acc) d

/-- The pure dict computation inside `merge_into_access_token_payload`
(session_class.py lines 217-223):
`update_payload = {**base, **update}` followed by deletion of every key
whose update value is `None`. Pure: it builds a new dict and mutates
neither argument. -/
def mergePayload (base upd : Payload) : Payload :=
  delNullKeys (dictUpdate base upd) upd

mutual

/-- `json.dumps` of one JSON value (string escaping not modelled; what
matters for the embedding is that serialization reads a dict in insertion
order). -/
def jsonDumpsVal : JVal → String
  | JVal.null => "null"
  | JVal.bool true => "true"
  | JVal.bool false => "false"
  | JVal.num n => toString n
  | JVal.str s => "\"" ++ s ++ "\""
  | JVal.arr xs => "[" ++ jsonDumpsArr xs ++ "]"
  | JVal.obj fs => "\x7b" ++ jsonDumpsFields fs ++ "\x7d"

/-- Comma-separated serialization of a JSON array's elements. -/
def jsonDumpsArr : List JVal → String
  | [] => ""
  | [x] => jsonDumpsVal x
  | x :: y :: rest => jsonDumpsVal x ++ ", " ++ jsonDumpsArr (y :: rest)

/-- Comma-separated serialization of a dict's entries, in insertion
order (Python `json.dumps` default: no `sort_keys`). -/
def jsonDumpsFields : List (String × JVal) → String
  | [] => ""
  | [kv] => "\"" ++ kv.1 ++ "\": " ++ jsonDumpsVal kv.2
  | kv :: kv' :: rest =>
      "\"" ++ kv.1 ++ "\": " ++ jsonDumpsVal kv.2 ++ ", " ++
        jsonDumpsFields (kv' :: rest)

end

/-- `json.dumps` of a payload dict, as used by the snapshot and the
changed-check of `assert_claims` (lines 130 and 176). -/
def jsonDumps (p : Payload) : String :=
  "\x7b" ++ jsonDumpsFields p ++ "\x7d"

/-- The spec's notion of payload equality for the "changed?" check: deep
structural equality of the underlying key-to-value mappings, insensitive
to the order of keys. -/
def deepEqual (p q : Payload) : Prop :=
  ∀ k, dictGet p k = dictGet q k

/-- An access token together with its metadata, as in the Store Gateway's
`regenerate_access_token` response (`response.access_token`) and in the
session's `new_access_token_info` dict
(`{"token": …, "expiry": …, "createdTime": …}`). -/
structure AccessTokenInfo where
  token : String
  expiry : Int
  createdTime : Int

/-- The Store Gateway's `regenerate_access_token` success response:
`response.session.user_data_in_jwt` (the authoritative payload) and an
optional new access token. -/
structure RegenResponse where
  userDataInJwt : Payload
  accessToken : Option AccessTokenInfo

/-- The Store Gateway dependency (`recipe_implementation`), restricted to
the one call the claims need: `regenerate_access_token(current_token,
new_payload)`; `none` means the session no longer exists. It is modelled
as a pure function parameter (dependency injection, as in the spec). -/
abbrev Gateway := String → Payload → Option RegenResponse

/-- The mutable fields of the `Session` object that the claims touch. -/
structure SessionState where
  sessionHandle : String
  userId : String
  accessToken : String
  accessTokenPayload : Payload
  newAccessTokenInfo : Option AccessTokenInfo

/-- One entry of the error list carried by InvalidClaims:
`ClaimValidationError(validator.id, claim_validation_res["reason"])`. -/
structure ClaimValidationError where
  validatorId : String
  reason : JVal

/-- The exceptions these operations can raise. `keyError` models the
Python `KeyError` raised by an unguarded dict subscript. -/
inductive SessionError where
  | unauthorized (msg : String)
  | invalidClaims (msg : String) (errors : List ClaimValidationError)
  | keyError (key : String)

/-- One call made to the Store Gateway's `regenerate_access_token`, with
the arguments it received. -/
structure GatewayCall where
  currentToken : String
  newPayload : Payload

/-- Result of running one stateful session operation: the session state
afterwards, the exception raised (if any), and the list of Store Gateway
calls the operation made, in order. A raised exception does not roll back
what the operation already wrote to the state. -/
structure StepResult where
  state : SessionState
  err : Option SessionError
  calls : List GatewayCall

/-- `Session.update_access_token_payload` (session_class.py lines 65-85):
calls `regenerate_access_token(self.access_token, new_payload)`; if the
gateway reports the session gone, raises Unauthorized (state untouched);
otherwise replaces `access_token_payload` with the gateway's
`user_data_in_jwt` and, when the gateway returned a new token, replaces
`access_token` and `new_access_token_info` as well. -/
def update_access_token_payload (regen : Gateway) (s : SessionState)
    (newPayload : Payload) : StepResult :=
  let call : GatewayCall := ⟨s.accessToken, newPayload⟩
  match regen s.accessToken newPayload with
  | none =>
      ⟨s, some (SessionError.unauthorized "Session does not exist anymore."),
        [call]⟩
  | some resp =>
      let s1 := { s with accessTokenPayload := resp.userDataInJwt }
      match resp.accessToken with
      | none => ⟨s1, none, [call]⟩
      | some at_ =>
          ⟨{ s1 with accessToken := at_.token, newAccessTokenInfo := some at_ },
            none, [call]⟩

/-- `Session.merge_into_access_token_payload` (lines 214-225): merges the
update map over the current payload with `mergePayload` and commits the
result through `update_access_token_payload`. -/
def merge_into_access_token_payload (regen : Gateway) (s : SessionState)
    (upd : Payload) : StepResult :=
  update_access_token_payload regen s (mergePayload s.accessTokenPayload upd)

/-- A `SessionClaim`, reduced to the operations `assert_claims` and
`remove_claim` use. These are abstract methods implemented outside this
slice, so they are arbitrary pure functions here (the context bag is
dropped: it is passed through unchanged). -/
structure ClaimModel where
  fetch_value : String → Option JVal
  add_to_payload : Payload → JVal → Payload
  remove_from_payload_by_merge : Payload → Payload

/-- What `validator.validate` returns: a dict read via
`res.get("isValid")` (absent ⇒ falsy) and `res["reason"]` (absent ⇒
KeyError). The `isValid` entry is modelled as an optional boolean. -/
structure ValidationResult where
  isValid : Option Bool
  reason : Option JVal

/-- Python truthiness of the `isValid` entry as used by
`if not claim_validation_res.get("isValid")`. -/
def isTruthy : Option Bool → Bool
  | some true => true
  | _ => false

/-- A `SessionClaimValidator`: an id, an optional bound claim
(`hasattr(validator, "claim") and validator.claim is not None`), and the
`should_refetch` / `validate` hooks. -/
structure ValidatorModel where
  id : String
  claim : Option ClaimModel
  should_refetch : Payload → Bool
  validate : Payload → ValidationResult

/-- The refetch step of one `assert_claims` loop iteration (lines
138-161): when the validator carries a claim and `should_refetch` says so,
fetch the claim's value and, if present, merge it into the working payload
with `add_to_payload_`; otherwise the working payload is unchanged. -/
def refetched (userId : String) (v : ValidatorModel) (w : Payload) : Payload :=
  match v.claim with
  | none => w
  | some c =>
      if v.should_refetch w then
        match c.fetch_value userId with
        | none => w
        | some value => c.add_to_payload w value
      else w

/-- One iteration of the `assert_claims` loop (lines 136-174) on the
working payload and accumulated error list: refetch, then validate; a
failing result without a `"reason"` key raises KeyError (line 173's
unguarded `claim_validation_res["reason"]`). -/
def processValidator (userId : String) (v : ValidatorModel) (w : Payload)
    (errs : List ClaimValidationError) :
    Except SessionError (Payload × List ClaimValidationError) :=
  let res := v.validate (refetched userId v w)
  if isTruthy res.isValid then Except.ok (refetched userId v w, errs)
  else
    match res.reason with
    | some r => Except.ok (refetched userId v w, errs ++ [⟨v.id, r⟩])
    | none => Except.error (SessionError.keyError "reason")

/-- The full `assert_claims` loop over the validator list, threading the
working payload and the error list in list order. -/
def runValidators (userId : String) (validators : List ValidatorModel)
    (working : Payload) (errs : List ClaimValidationError) :
    Except SessionError (Payload × List ClaimValidationError) :=
  match validators with
  | [] => Except.ok (working, errs)
  | v :: rest =>
      match processValidator userId v working errs with
      | Except.error e => Except.error e
      | Except.ok (w', errs') => runValidators userId rest w' errs'

/-- `Session.assert_claims` (lines 125-182): snapshot
`json.dumps(self.get_access_token_payload())`, run the validators on the
working payload, commit via `merge_into_access_token_payload` exactly
when the serialized working payload differs from the snapshot, then raise
InvalidClaims when the error list is non-empty. The state and gateway
calls of an exceptional run are those already produced before the raise. -/
def assert_claims (regen : Gateway) (s : SessionState)
    (validators : List ValidatorModel) : StepResult :=
  match runValidators s.userId validators s.accessTokenPayload [] with
  | Except.error e => ⟨s, some e, []⟩
  | Except.ok (working, errs) =>
      let committed : StepResult :=
        if jsonDumps working ≠ jsonDumps s.accessTokenPayload then
          merge_into_access_token_payload regen s working
        else ⟨s, none, []⟩
      match committed.err with
      | some e => ⟨committed.state, some e, committed.calls⟩
      | none =>
          if errs.isEmpty then ⟨committed.state, none, committed.calls⟩
          else
            ⟨committed.state,
              some (SessionError.invalidClaims "INVALID_CLAIMS" errs),
              committed.calls⟩

/-- `Session.remove_claim` (lines 206-212): builds the claim's tombstone
update against an empty dict and commits it through
`merge_into_access_token_payload`. -/
def remove_claim (regen : Gateway) (s : SessionState) (claim : ClaimModel) :
    StepResult :=
  merge_into_access_token_payload regen s (claim.remove_from_payload_by_merge [])

/-! ### Concrete instances used by witnesses and counterexamples -/

/-- A Store Gateway that accepts every regenerate call and echoes the
submitted payload back as authoritative, returning no new token. -/
def regenEcho : Gateway := fun _ p => some ⟨p, none⟩

/-- A Store Gateway that echoes the submitted payload and also returns a
fresh access token with metadata. -/
def regenEchoTok : Gateway := fun _ p => some ⟨p, some ⟨"tok2", 500, 100⟩⟩

/-- A Store Gateway for which the session is gone: every regenerate call
returns absent. -/
def regenGone : Gateway := fun _ _ => none

/-- A session whose payload is `{"sub": "u1"}`. -/
def sBase : SessionState :=
  ⟨"h1", "u1", "tok1", [("sub", JVal.str "u1")], none⟩

/-- A session whose payload is `{"role": "admin", "sub": "u1"}`. -/
def sRole : SessionState :=
  ⟨"h1", "u1", "tok1", [("role", JVal.str "admin"), ("sub", JVal.str "u1")], none⟩

/-- A session whose payload is `{"a": 1, "b": 2}`. -/
def sAB : SessionState :=
  ⟨"h1", "u1", "tok1", [("a", JVal.num 1), ("b", JVal.num 2)], none⟩

/-- A claim owning the key `"role"`: fetches `"admin"`, adds by setting
`"role"`, removes by tombstoning `"role"` (the shape real `SessionClaim`
subclasses have). -/
def roleClaim : ClaimModel :=
  ⟨fun _ => some (JVal.str "admin"),
   fun p v => dictSet p "role" v,
   fun p => dictSet p "role" JVal.null⟩

/-- A claim whose refetch rewrites the payload `{"a": 1, "b": 2}` into the
key-reordered but map-equal `{"b": 2, "a": 1}`. -/
def reorderClaim : ClaimModel :=
  ⟨fun _ => some (JVal.num 0),
   fun _ _ => [("b", JVal.num 2), ("a", JVal.num 1)],
   fun p => p⟩

/-- A validator bound to `reorderClaim` that always refetches and always
passes. -/
def vReorder : ValidatorModel :=
  ⟨"vr", some reorderClaim, fun _ => true, fun _ => ⟨some true, some JVal.null⟩⟩

/-- A validator bound to `roleClaim` that always refetches and always
fails with reason `"not admin"`. -/
def vFail : ValidatorModel :=
  ⟨"vf", some roleClaim, fun _ => true,
   fun _ => ⟨some false, some (JVal.str "not admin")⟩⟩

/-- A plain validator (no claim) that always passes. -/
def vOk : ValidatorModel :=
  ⟨"vo", none, fun _ => false, fun _ => ⟨some true, none⟩⟩

/-- A plain validator whose result is invalid and carries no `"reason"`
entry. -/
def vNoReason : ValidatorModel :=
  ⟨"vn", none, fun _ => false, fun _ => ⟨some false, none⟩⟩

/-- A validator bound to `roleClaim` whose payload-dependent
`should_refetch` asks for a refetch only when the `"role"` key is absent
from the payload it observes, and which always passes: on a session that
already carries `"role"` it triggers no refetch. -/
def vFresh : ValidatorModel :=
  ⟨"vfr", some roleClaim, fun p => (dictGet p "role").isNone,
   fun _ => ⟨some true, some JVal.null⟩⟩

/-! ### Dictionary lemmas -/

theorem dictGet_dictSet (d : Payload) (k k' : String) (v : JVal) :
    dictGet (dictSet d k v) k' = if k = k' then some v else dictGet d k' := by
  induction d with
  | nil => simp [dictSet, dictGet]
  | cons kv rest ih =>
      obtain ⟨a, b⟩ := kv
      by_cases hak : a = k
      · subst hak
        by_cases hkk : a = k' <;> simp [dictSet, dictGet, hkk]
      · by_cases hak' : a = k'
        · subst hak'
          have hka : ¬k = a := fun hx => hak hx.symm
          simp [dictSet, dictGet, hak, hka]
        · simp [dictSet, dictGet, hak, hak', ih]

theorem dictGet_dictDel (d : Payload) (k k' : String) :
    dictGet (dictDel d k) k' = if k = k' then none else dictGet d k' := by
  induction d with
  | nil => simp [dictDel, dictGet]
  | cons kv rest ih =>
      obtain ⟨a, b⟩ := kv
      by_cases hak : a = k <;> by_cases hak' : a = k' <;>
        by_cases hkk : k = k' <;>
        simp [dictDel, dictGet, hak, hak', hkk] at ih ⊢ <;> simp_all [dictGet]

theorem dictGet_eq_none_of_not_mem (d : Payload) (k : String)
    (h : k ∉ d.map Prod.fst) : dictGet d k = none := by
  induction d with
  | nil => rfl
  | cons kv rest ih =>
      simp only [List.map_cons, List.mem_cons] at h
      push_neg at h
      have h1 : ¬kv.1 = k := fun hx => h.1 hx.symm
      simp [dictGet, h1, ih h.2]

theorem dictGet_dictUpdate (base upd : Payload) (k : String)
    (h : (upd.map Prod.fst).Nodup) :
    dictGet (dictUpdate base upd) k =
      match dictGet upd k with
      | some v => some v
      | none => dictGet base k := by
  induction upd generalizing base with
  | nil => rfl
  | cons kv rest ih =>
      obtain ⟨a, b⟩ := kv
      simp only [List.map_cons, List.nodup_cons] at h
      have lhs : dictGet (dictUpdate base ((a, b) :: rest)) k =
          dictGet (dictUpdate (dictSet base a b) rest) k := rfl
      rw [lhs, ih _ h.2]
      by_cases hak : a = k
      · subst hak
        have hnone : dictGet rest a = none :=
          dictGet_eq_none_of_not_mem _ _ h.1
        simp [dictGet, hnone, dictGet_dictSet]
      · simp only [dictGet, hak, if_neg hak]
        cases hrest : dictGet rest k with
        | some v => simp
        | none => simp [dictGet_dictSet, hak]

theorem dictGet_delNullKeys (d upd : Payload) (k : String) :
    dictGet (delNullKeys d upd) k =
      if upd.any (fun kv => kv.1 == k && isNull kv.2) then none
      else dictGet d k := by
  induction upd generalizing d with
  | nil => rfl
  | cons kv rest ih =>
      obtain ⟨a, b⟩ := kv
      have lhs : delNullKeys d ((a, b) :: rest) =
          delNullKeys (if isNull b then dictDel d a else d) rest := rfl
      rw [lhs]
      by_cases hb : isNull b
      · by_cases hak : a = k
        · subst hak
          simp [hb, ih, dictGet_dictDel]
        · have hbeq : (a == k) = false := by simp [hak]
          simp only [hb, ih, dictGet_dictDel, hak, if_true, List.any_cons,
            hbeq, Bool.false_and, Bool.false_or, if_false, ite_false]
      · have hb' : isNull b = false := by simpa using hb
        simp only [hb', ih, List.any_cons, Bool.and_false, Bool.false_or,
          if_false, ite_false]
        simp

theorem any_nullkey_of_dictGet (upd : Payload) (k : String)
    (h : (upd.map Prod.fst).Nodup) :
    (upd.any (fun kv => kv.1 == k && isNull kv.2)) =
      match dictGet upd k with
      | some v => isNull v
      | none => false := by
  induction upd with
  | nil => rfl
  | cons kv rest ih =>
      obtain ⟨a, b⟩ := kv
      simp only [List.map_cons, List.nodup_cons] at h
      by_cases hak : a = k
      · subst hak
        have hnone : dictGet rest a = none :=
          dictGet_eq_none_of_not_mem _ _ h.1
        have hrest : (rest.any (fun kv => kv.1 == a && isNull kv.2)) = false := by
          rw [ih h.2, hnone]
        simp [dictGet, List.any_cons, hrest]
      · simp [dictGet, List.any_cons, hak, ih h.2]

/-- Full characterization of the merge of `merge_into_access_token_payload`
by lookups: a key tombstoned in the update map is absent from the result,
a key with a non-tombstone update value maps to that value, and every
other key keeps its value from the base payload. -/
theorem dictGet_mergePayload (base upd : Payload) (k : String)
    (h : (upd.map Prod.fst).Nodup) :
    dictGet (mergePayload base upd) k =
      match dictGet upd k with
      | some v => if isNull v then none else some v
      | none => dictGet base k := by
  unfold mergePayload
  rw [dictGet_delNullKeys, any_nullkey_of_dictGet _ _ h,
    dictGet_dictUpdate _ _ _ h]
  cases hupd : dictGet upd k with
  | none => simp
  | some v => by_cases hv : isNull v <;> simp [hv]

/-! ### Loop lemmas for the assert_claims validator pass -/

theorem processValidator_errs_prepend (u : String) (v : ValidatorModel)
    (w : Payload) (errs : List ClaimValidationError) :
    processValidator u v w errs =
      match processValidator u v w [] with
      | Except.error e => Except.error e
      | Except.ok (w', es) => Except.ok (w', errs ++ es) := by
  unfold processValidator
  cases h : isTruthy (v.validate (refetched u v w)).isValid
  · cases hr : (v.validate (refetched u v w)).reason <;> simp [h, hr]
  · simp [h]

theorem runValidators_errs_prepend (u : String) (vs : List ValidatorModel)
    (w : Payload) (errs : List ClaimValidationError) :
    runValidators u vs w errs =
      match runValidators u vs w [] with
      | Except.error e => Except.error e
      | Except.ok (w', es) => Except.ok (w', errs ++ es) := by
  induction vs generalizing w errs with
  | nil => simp [runValidators]
  | cons v rest ih =>
      simp only [runValidators]
      rw [processValidator_errs_prepend]
      cases h0 : processValidator u v w [] with
      | error e => rfl
      | ok st' =>
          obtain ⟨w1, es1⟩ := st'
          simp only []
          rw [ih w1 (errs ++ es1), ih w1 es1]
          cases runValidators u rest w1 [] with
          | error e => rfl
          | ok st'' => obtain ⟨w2, es2⟩ := st''; simp

theorem runValidators_append (u : String) (xs ys : List ValidatorModel)
    (w : Payload) (errs : List ClaimValidationError) :
    runValidators u (xs ++ ys) w errs =
      match runValidators u xs w errs with
      | Except.error e => Except.error e
      | Except.ok (w', es) => runValidators u ys w' es := by
  induction xs generalizing w errs with
  | nil => simp [runValidators]
  | cons v rest ih =>
      simp only [List.cons_append, runValidators]
      cases processValidator u v w errs with
      | error e => rfl
      | ok st' => obtain ⟨w1, es1⟩ := st'; exact ih w1 es1

theorem refetched_eq_of_no_refetch (u : String) (v : ValidatorModel)
    (w : Payload)
    (h : v.claim = none ∨ v.should_refetch w = false) :
    refetched u v w = w := by
  unfold refetched
  rcases h with h | h
  · rw [h]
  · cases hc : v.claim <;> simp [h]

theorem runValidators_no_refetch (u : String) (vs : List ValidatorModel)
    (w : Payload) (errs : List ClaimValidationError)
    (h : ∀ v ∈ vs, v.claim = none ∨ v.should_refetch w = false) :
    (∃ e, runValidators u vs w errs = Except.error e) ∨
    (∃ errs2, runValidators u vs w errs = Except.ok (w, errs2)) := by
  induction vs generalizing errs with
  | nil => exact Or.inr ⟨errs, rfl⟩
  | cons v rest ih =>
      have hv := h v (List.mem_cons_self v rest)
      have hr : refetched u v w = w := refetched_eq_of_no_refetch u v w hv
      have hrest : ∀ v' ∈ rest, v'.claim = none ∨ v'.should_refetch w = false :=
        fun v' hv' => h v' (List.mem_cons_of_mem v hv')
      simp only [runValidators, processValidator, hr]
      cases ht : isTruthy (v.validate w).isValid
      · cases hreason : (v.validate w).reason with
        | none =>
            exact Or.inl ⟨SessionError.keyError "reason", by simp [ht, hreason]⟩
        | some r =>
            simp only [ht, hreason, Bool.false_eq_true, if_false, ite_false]
            exact ih _ hrest
      · simp only [ht, if_true, ite_true]
        exact ih _ hrest

theorem assert_claims_of_run_ok (regen : Gateway) (s : SessionState)
    (vs : List ValidatorModel) (working : Payload)
    (errs : List ClaimValidationError)
    (hrun : runValidators s.userId vs s.accessTokenPayload [] =
      Except.ok (working, errs)) :
    assert_claims regen s vs =
      (let committed : StepResult :=
        if jsonDumps working ≠ jsonDumps s.accessTokenPayload then
          merge_into_access_token_payload regen s working
        else ⟨s, none, []⟩
      match committed.err with
      | some e => ⟨committed.state, some e, committed.calls⟩
      | none =>
          if errs.isEmpty then ⟨committed.state, none, committed.calls⟩
          else
            ⟨committed.state,
              some (SessionError.invalidClaims "INVALID_CLAIMS" errs),
              committed.calls⟩) := by
  unfold assert_claims
  rw [hrun]

theorem merge_into_ok_shape (regen : Gateway) (s : SessionState)
    (upd : Payload) (resp : RegenResponse)
    (h : regen s.accessToken (mergePayload s.accessTokenPayload upd) =
      some resp) :
    (merge_into_access_token_payload regen s upd).err = none ∧
    (merge_into_access_token_payload regen s upd).calls =
      [⟨s.accessToken, mergePayload s.accessTokenPayload upd⟩] := by
  unfold merge_into_access_token_payload update_access_token_payload
  rw [h]
  cases hat : resp.accessToken <;> simp [hat]

theorem merge_into_calls (regen : Gateway) (s : SessionState) (upd : Payload) :
    (merge_into_access_token_payload regen s upd).calls =
      [⟨s.accessToken, mergePayload s.accessTokenPayload upd⟩] := by
  unfold merge_into_access_token_payload update_access_token_payload
  cases h : regen s.accessToken (mergePayload s.accessTokenPayload upd) with
  | none => rfl
  | some resp => cases hat : resp.accessToken <;> simp [hat]

/-! ### Claim theorems -/

/-- C9: merging the empty update map into any payload yields a result
structurally equal to (here: definitionally the same list as) the original
payload, so the empty update is an identity of the merge; `mergePayload`
is a pure function on immutable association lists, so it mutates neither
of its arguments. -/
theorem mergePayload_empty_update_identity (base : Payload) :
    mergePayload base [] = base := rfl

/-- C3: for every base payload and every update map obeying the dict
unique-key invariant, the merge computed by
`merge_into_access_token_payload` removes every key whose update value is
the delete-tombstone `None` (including as a no-op when the key is absent
from the base, since no hypothesis on the base is needed), sets every
other key of the update map to its update value, keeps the remaining keys
at their base values, and never sets a key to the tombstone itself. -/
theorem mergePayload_tombstone_delete_and_set (base upd : Payload)
    (h : (upd.map Prod.fst).Nodup) :
    (∀ k v, dictGet upd k = some v → isNull v →
        dictGet (mergePayload base upd) k = none) ∧
    (∀ k v, dictGet upd k = some v → ¬isNull v = true →
        dictGet (mergePayload base upd) k = some v) ∧
    (∀ k, dictGet upd k = none →
        dictGet (mergePayload base upd) k = dictGet base k) := by
  refine ⟨?_, ?_, ?_⟩
  · intro k v hk hv
    rw [dictGet_mergePayload base upd k h, hk]
    simp [hv]
  · intro k v hk hv
    rw [dictGet_mergePayload base upd k h, hk]
    simp [hv]
  · intro k hk
    rw [dictGet_mergePayload base upd k h, hk]

/-- Witness for C3 at base `{"a": 1, "b": 2}` and update
`{"b": null, "c": 3}`: `"b"` is deleted, `"c"` is set, `"a"` keeps its
base value. -/
theorem mergePayload_tombstone_witness :
    ((([("b", JVal.null), ("c", JVal.num 3)] : Payload).map Prod.fst).Nodup) ∧
    dictGet (mergePayload [("a", JVal.num 1), ("b", JVal.num 2)]
      [("b", JVal.null), ("c", JVal.num 3)]) "b" = none ∧
    dictGet (mergePayload [("a", JVal.num 1), ("b", JVal.num 2)]
      [("b", JVal.null), ("c", JVal.num 3)]) "c" = some (JVal.num 3) ∧
    dictGet (mergePayload [("a", JVal.num 1), ("b", JVal.num 2)]
      [("b", JVal.null), ("c", JVal.num 3)]) "a" =
      dictGet [("a", JVal.num 1), ("b", JVal.num 2)] "a" := by
  refine ⟨by decide, ?_, ?_, ?_⟩
  · exact (mergePayload_tombstone_delete_and_set _ _ (by decide)).1
      "b" JVal.null rfl rfl
  · exact (mergePayload_tombstone_delete_and_set _ _ (by decide)).2.1
      "c" (JVal.num 3) rfl (by decide)
  · exact (mergePayload_tombstone_delete_and_set _ _ (by decide)).2.2 "a" rfl

/-- C5: when the Store Gateway's `regenerate_access_token` reports the
session gone (returns absent), `merge_into_access_token_payload` raises
Unauthorized with exactly the message "Session does not exist anymore."
and the session state — payload, token and token metadata — is returned
unchanged (the whole `StepResult` state is the input state). -/
theorem merge_session_gone_unauthorized (regen : Gateway) (s : SessionState)
    (upd : Payload)
    (h : regen s.accessToken (mergePayload s.accessTokenPayload upd) = none) :
    merge_into_access_token_payload regen s upd =
      ⟨s, some (SessionError.unauthorized "Session does not exist anymore."),
        [⟨s.accessToken, mergePayload s.accessTokenPayload upd⟩]⟩ := by
  unfold merge_into_access_token_payload update_access_token_payload
  rw [h]

/-- Witness for C5: a gateway for which every session is gone, applied to
the session with payload `{"sub": "u1"}` and the empty update. -/
theorem merge_session_gone_witness :
    regenGone sBase.accessToken (mergePayload sBase.accessTokenPayload []) =
      none ∧
    merge_into_access_token_payload regenGone sBase [] =
      ⟨sBase,
        some (SessionError.unauthorized "Session does not exist anymore."),
        [⟨sBase.accessToken, mergePayload sBase.accessTokenPayload []⟩]⟩ :=
  ⟨rfl, merge_session_gone_unauthorized regenGone sBase [] rfl⟩

/-- C6: on a successful regenerate call, `update_access_token_payload`
replaces the session's `access_token_payload` with exactly the gateway's
returned `user_data_in_jwt` (not the locally computed payload), replaces
`access_token` and `new_access_token_info` together precisely when the
gateway returned a new token and leaves both unchanged otherwise, raises
nothing, and touches no other session field. -/
theorem update_payload_gateway_authoritative (regen : Gateway)
    (s : SessionState) (np : Payload) (resp : RegenResponse)
    (h : regen s.accessToken np = some resp) :
    (update_access_token_payload regen s np).err = none ∧
    (update_access_token_payload regen s np).state.accessTokenPayload =
      resp.userDataInJwt ∧
    ((update_access_token_payload regen s np).state.accessToken,
      (update_access_token_payload regen s np).state.newAccessTokenInfo) =
      (match resp.accessToken with
       | none => (s.accessToken, s.newAccessTokenInfo)
       | some a => (a.token, some a)) ∧
    (update_access_token_payload regen s np).state.sessionHandle =
      s.sessionHandle ∧
    (update_access_token_payload regen s np).state.userId = s.userId := by
  unfold update_access_token_payload
  rw [h]
  cases hat : resp.accessToken <;> simp [hat]

/-- Witness for C6: an echoing gateway that also returns a new token,
applied to the session with payload `{"sub": "u1"}` and the new payload
`{"x": 1}`. -/
theorem update_payload_gateway_witness :
    regenEchoTok sBase.accessToken [("x", JVal.num 1)] =
      some ⟨[("x", JVal.num 1)], some ⟨"tok2", 500, 100⟩⟩ ∧
    ((update_access_token_payload regenEchoTok sBase
        [("x", JVal.num 1)]).err = none ∧
      (update_access_token_payload regenEchoTok sBase
        [("x", JVal.num 1)]).state.accessTokenPayload =
        (⟨[("x", JVal.num 1)], some ⟨"tok2", 500, 100⟩⟩ :
          RegenResponse).userDataInJwt ∧
      ((update_access_token_payload regenEchoTok sBase
          [("x", JVal.num 1)]).state.accessToken,
        (update_access_token_payload regenEchoTok sBase
          [("x", JVal.num 1)]).state.newAccessTokenInfo) =
        (match (⟨[("x", JVal.num 1)], some ⟨"tok2", 500, 100⟩⟩ :
            RegenResponse).accessToken with
         | none => (sBase.accessToken, sBase.newAccessTokenInfo)
         | some a => (a.token, some a)) ∧
      (update_access_token_payload regenEchoTok sBase
        [("x", JVal.num 1)]).state.sessionHandle = sBase.sessionHandle ∧
      (update_access_token_payload regenEchoTok sBase
        [("x", JVal.num 1)]).state.userId = sBase.userId) :=
  ⟨rfl, update_payload_gateway_authoritative regenEchoTok sBase
    [("x", JVal.num 1)] ⟨[("x", JVal.num 1)], some ⟨"tok2", 500, 100⟩⟩ rfl⟩

/-- C1: when the working payload at the end of the validator pass differs
from the entry snapshot (compared as the code does, by serialized form)
and at least one validator failed, `assert_claims` commits the refreshed
payload through `merge_into_access_token_payload` (exactly one gateway
call, the merge's) and the resulting session state is the post-merge
state, even though the call then raises InvalidClaims with the collected
errors. -/
theorem assert_claims_commits_before_invalid (regen : Gateway)
    (s : SessionState) (vs : List ValidatorModel) (working : Payload)
    (errs : List ClaimValidationError) (resp : RegenResponse)
    (hrun : runValidators s.userId vs s.accessTokenPayload [] =
      Except.ok (working, errs))
    (hchanged : jsonDumps working ≠ jsonDumps s.accessTokenPayload)
    (herrs : errs ≠ [])
    (hregen : regen s.accessToken
      (mergePayload s.accessTokenPayload working) = some resp) :
    (assert_claims regen s vs).err =
      some (SessionError.invalidClaims "INVALID_CLAIMS" errs) ∧
    (assert_claims regen s vs).state =
      (merge_into_access_token_payload regen s working).state ∧
    (assert_claims regen s vs).calls =
      [⟨s.accessToken, mergePayload s.accessTokenPayload working⟩] := by
  obtain ⟨h1, h2⟩ := merge_into_ok_shape regen s working resp hregen
  have he : errs.isEmpty = false := by
    cases errs with
    | nil => exact absurd rfl herrs
    | cons a l => rfl
  rw [assert_claims_of_run_ok regen s vs working errs hrun]
  simp only [if_pos hchanged, h1, he]
  exact ⟨rfl, rfl, h2⟩

/-- Witness for C1: the session `{"sub": "u1"}` with the failing,
refetching validator `vFail` against an echoing gateway: the refreshed
`"role"` value is committed and InvalidClaims is still raised. -/
theorem assert_claims_commits_before_invalid_witness :
    runValidators sBase.userId [vFail] sBase.accessTokenPayload [] =
      Except.ok ([("sub", JVal.str "u1"), ("role", JVal.str "admin")],
        [⟨"vf", JVal.str "not admin"⟩]) ∧
    jsonDumps [("sub", JVal.str "u1"), ("role", JVal.str "admin")] ≠
      jsonDumps sBase.accessTokenPayload ∧
    ((assert_claims regenEcho sBase [vFail]).err =
      some (SessionError.invalidClaims "INVALID_CLAIMS"
        [⟨"vf", JVal.str "not admin"⟩]) ∧
    (assert_claims regenEcho sBase [vFail]).state =
      (merge_into_access_token_payload regenEcho sBase
        [("sub", JVal.str "u1"), ("role", JVal.str "admin")]).state ∧
    (assert_claims regenEcho sBase [vFail]).calls =
      [⟨sBase.accessToken, mergePayload sBase.accessTokenPayload
        [("sub", JVal.str "u1"), ("role", JVal.str "admin")]⟩]) :=
  ⟨rfl, by decide,
    assert_claims_commits_before_invalid regenEcho sBase [vFail]
      [("sub", JVal.str "u1"), ("role", JVal.str "admin")]
      [⟨"vf", JVal.str "not admin"⟩]
      ⟨mergePayload sBase.accessTokenPayload
        [("sub", JVal.str "u1"), ("role", JVal.str "admin")], none⟩
      rfl (by decide) (List.cons_ne_nil _ _) rfl⟩

/-- C2 counterexample: with payload `{"a": 1, "b": 2}` and a validator
whose refetch rewrites the working payload into the key-reordered but
map-equal `{"b": 2, "a": 1}`, the final working payload is
deep-structurally equal (key-order-insensitively) to the entry snapshot,
yet `assert_claims` does invoke `merge_into_access_token_payload` (a
gateway call is made) — refuting the claimed "if and only if". -/
theorem assert_claims_deep_equal_commit_counterexample :
    runValidators sAB.userId [vReorder] sAB.accessTokenPayload [] =
      Except.ok ([("b", JVal.num 2), ("a", JVal.num 1)], []) ∧
    deepEqual [("b", JVal.num 2), ("a", JVal.num 1)] sAB.accessTokenPayload ∧
    (assert_claims regenEcho sAB [vReorder]).calls ≠ [] := by
  refine ⟨rfl, ?_, ?_⟩
  · intro k
    by_cases ha : "a" = k
    · subst ha
      have hb : ¬("b" = "a") := by decide
      simp [sAB, dictGet, hb]
    · by_cases hb : "b" = k
      · subst hb
        simp [sAB, dictGet, ha]
      · simp [sAB, dictGet, ha, hb]
  · exact List.cons_ne_nil _ _

/-- C2 (amended): `assert_claims` invokes
`merge_into_access_token_payload` if and only if the `json.dumps`
serialization of the final working payload differs from the serialization
snapshot taken at entry — a comparison that is sensitive to key order,
not the key-order-insensitive deep equality the claim stated. -/
theorem assert_claims_commit_iff_serialization_differs (regen : Gateway)
    (s : SessionState) (vs : List ValidatorModel) (working : Payload)
    (errs : List ClaimValidationError)
    (hrun : runValidators s.userId vs s.accessTokenPayload [] =
      Except.ok (working, errs)) :
    ((assert_claims regen s vs).calls ≠ [] ↔
      jsonDumps working ≠ jsonDumps s.accessTokenPayload) := by
  rw [assert_claims_of_run_ok regen s vs working errs hrun]
  by_cases hch : jsonDumps working = jsonDumps s.accessTokenPayload
  · simp only [hch, ne_eq, not_true_eq_false, if_false, ite_false]
    cases he : errs.isEmpty <;> simp [he]
  · have hcalls := merge_into_calls regen s working
    simp only [if_pos hch, ne_eq, hch, not_false_eq_true, if_true, ite_true]
    cases herr : (merge_into_access_token_payload regen s working).err with
    | some e => simp [herr, hcalls]
    | none =>
        cases he : errs.isEmpty <;> simp [herr, he, hcalls]

/-- Witness for C2's amended theorem: the failing, refetching validator
`vFail` on session `{"sub": "u1"}`: the serializations differ and the
merge is invoked. -/
theorem assert_claims_commit_iff_witness :
    runValidators sBase.userId [vFail] sBase.accessTokenPayload [] =
      Except.ok ([("sub", JVal.str "u1"), ("role", JVal.str "admin")],
        [⟨"vf", JVal.str "not admin"⟩]) ∧
    ((assert_claims regenEcho sBase [vFail]).calls ≠ [] ↔
      jsonDumps [("sub", JVal.str "u1"), ("role", JVal.str "admin")] ≠
        jsonDumps sBase.accessTokenPayload) :=
  ⟨rfl, assert_claims_commit_iff_serialization_differs regenEcho sBase [vFail]
    [("sub", JVal.str "u1"), ("role", JVal.str "admin")]
    [⟨"vf", JVal.str "not admin"⟩] rfl⟩

/-- C4: the validator pass of `assert_claims` is compositional in list
order: running `vs1 ++ vs2` first runs `vs1`, then runs `vs2` from the
working payload `vs1` produced (so every later validator's
`should_refetch` and `validate` observe the merges of all earlier
validators in the same pass), and the error lists concatenate in list
order; moreover a single validator first refetches from the working
payload it observes, validates the post-refetch payload, and on failure
contributes exactly the entry `{validator_id, reason}` (these are the
errors InvalidClaims carries, by the theorem for C1). -/
theorem runValidators_order_and_errors (u : String)
    (vs1 vs2 : List ValidatorModel) (w : Payload) (v : ValidatorModel) :
    (runValidators u (vs1 ++ vs2) w [] =
      (match runValidators u vs1 w [] with
       | Except.error e => Except.error e
       | Except.ok (w1, e1) =>
           match runValidators u vs2 w1 [] with
           | Except.error e => Except.error e
           | Except.ok (w2, e2) => Except.ok (w2, e1 ++ e2))) ∧
    (runValidators u [v] w [] =
      (let wv : Payload :=
        match v.claim with
        | none => w
        | some c =>
            if v.should_refetch w then
              match c.fetch_value u with
              | none => w
              | some value => c.add_to_payload w value
            else w
       let res := v.validate wv
       if isTruthy res.isValid then Except.ok (wv, [])
       else
         match res.reason with
         | some r => Except.ok (wv, [⟨v.id, r⟩])
         | none => Except.error (SessionError.keyError "reason"))) := by
  constructor
  · rw [runValidators_append u vs1 vs2 w []]
    cases h1 : runValidators u vs1 w [] with
    | error e => rfl
    | ok st =>
        obtain ⟨w1, e1⟩ := st
        simp only []
        rw [runValidators_errs_prepend u vs2 w1 e1]
  · show (match processValidator u v w [] with
      | Except.error e => Except.error e
      | Except.ok (w', errs') => runValidators u [] w' errs') = _
    unfold processValidator refetched
    cases ht : isTruthy
        (v.validate (match v.claim with
          | none => w
          | some c =>
              if v.should_refetch w then
                match c.fetch_value u with
                | none => w
                | some value => c.add_to_payload w value
              else w)).isValid
    · cases hr : (v.validate (match v.claim with
          | none => w
          | some c =>
              if v.should_refetch w then
                match c.fetch_value u with
                | none => w
                | some value => c.add_to_payload w value
              else w)).reason <;> simp [ht, hr, runValidators]
    · simp [ht, runValidators]

/-- C7: in a run where no validator triggers a refetch — each validator
either carries no claim or its `should_refetch` answers false on the
payload it actually observes, which stays the entry payload because
nothing else can move it — the working payload never changes, so
`assert_claims` never invokes `merge_into_access_token_payload` (no
gateway call) and returns or raises with the session state — payload,
token and token metadata — exactly as it was. -/
theorem assert_claims_no_refetch_no_commit (regen : Gateway)
    (s : SessionState) (vs : List ValidatorModel)
    (h : ∀ v ∈ vs, v.claim = none ∨
      v.should_refetch s.accessTokenPayload = false) :
    (assert_claims regen s vs).state = s ∧
    (assert_claims regen s vs).calls = [] := by
  rcases runValidators_no_refetch s.userId vs s.accessTokenPayload [] h with
    ⟨e, he⟩ | ⟨errs2, he⟩
  · unfold assert_claims
    rw [he]
    exact ⟨rfl, rfl⟩
  · rw [assert_claims_of_run_ok regen s vs s.accessTokenPayload errs2 he]
    simp only [ne_eq, not_true_eq_false, if_false, ite_false]
    cases he2 : errs2.isEmpty <;> simp [he2]

/-- Witness for C7: the claim-bound validator `vFresh` on the session
`{"role": "admin", "sub": "u1"}`: its payload-dependent `should_refetch`
answers false on the observed payload (the claim is already fresh), so
no refetch is triggered, no gateway call is made and the state is
untouched. -/
theorem assert_claims_no_refetch_witness :
    (∀ v ∈ [vFresh], v.claim = none ∨
      v.should_refetch sRole.accessTokenPayload = false) ∧
    ((assert_claims regenEcho sRole [vFresh]).state = sRole ∧
      (assert_claims regenEcho sRole [vFresh]).calls = []) := by
  have hH : ∀ v ∈ [vFresh], v.claim = none ∨
      v.should_refetch sRole.accessTokenPayload = false := by
    intro v hv
    rw [List.mem_singleton] at hv
    subst hv
    exact Or.inr rfl
  exact ⟨hH, assert_claims_no_refetch_no_commit regenEcho sRole [vFresh] hH⟩

/-- C8 counterexample: `remove_claim` on the session
`{"role": "admin", "sub": "u1"}` with the `"role"`-owning claim makes
exactly one gateway call whose payload is the full merged payload
`{"sub": "u1"}` — the gateway does not receive the update map
`{"role": tombstone}`; the `"role"` key (tombstoned or otherwise) is
absent from what the gateway receives. -/
theorem remove_claim_gateway_payload_counterexample :
    (remove_claim regenEcho sRole roleClaim).calls =
      [⟨"tok1", [("sub", JVal.str "u1")]⟩] ∧
    dictGet [("sub", JVal.str "u1")] "role" = none :=
  ⟨rfl, rfl⟩

/-- C8 (amended): for a claim whose delete-update is exactly
`{"role": tombstone}`, `remove_claim` commits through the gateway the
full merged payload, from which `"role"` has been removed (not the raw
update map with the tombstone); with a gateway that echoes the submitted
payload as authoritative, the committed session payload has no `"role"`
key. -/
theorem remove_claim_tombstone_commit (regen : Gateway) (s : SessionState)
    (c : ClaimModel) (resp : RegenResponse)
    (hdel : c.remove_from_payload_by_merge [] = [("role", JVal.null)])
    (hregen : regen s.accessToken
      (mergePayload s.accessTokenPayload [("role", JVal.null)]) = some resp)
    (hecho : resp.userDataInJwt =
      mergePayload s.accessTokenPayload [("role", JVal.null)]) :
    (remove_claim regen s c).calls =
      [⟨s.accessToken,
        mergePayload s.accessTokenPayload [("role", JVal.null)]⟩] ∧
    dictGet (mergePayload s.accessTokenPayload [("role", JVal.null)])
      "role" = none ∧
    dictGet (remove_claim regen s c).state.accessTokenPayload "role" =
      none := by
  have hrole : dictGet (mergePayload s.accessTokenPayload
      [("role", JVal.null)]) "role" = none := by
    rw [dictGet_mergePayload _ _ _ (by simp)]
    simp [dictGet, isNull]
  unfold remove_claim merge_into_access_token_payload
    update_access_token_payload
  rw [hdel, hregen]
  cases hat : resp.accessToken <;> simp [hat, hecho, hrole]

/-- Witness for C8's amended theorem: the `"role"`-owning claim on
session `{"role": "admin", "sub": "u1"}` with the echoing gateway. -/
theorem remove_claim_tombstone_witness :
    roleClaim.remove_from_payload_by_merge [] = [("role", JVal.null)] ∧
    ((remove_claim regenEcho sRole roleClaim).calls =
      [⟨sRole.accessToken,
        mergePayload sRole.accessTokenPayload [("role", JVal.null)]⟩] ∧
    dictGet (mergePayload sRole.accessTokenPayload [("role", JVal.null)])
      "role" = none ∧
    dictGet (remove_claim regenEcho sRole roleClaim).state.accessTokenPayload
      "role" = none) :=
  ⟨rfl, remove_claim_tombstone_commit regenEcho sRole roleClaim
    ⟨mergePayload sRole.accessTokenPayload [("role", JVal.null)], none⟩
    rfl rfl rfl⟩

/-- C10: if the validator pass reaches a validator whose `validate`
result has a falsy `isValid` and no `"reason"` entry, `assert_claims`
raises KeyError for `"reason"` (the unguarded subscript on line 173):
no ValidationError is recorded for it, the remaining validators never
run, no merge commit happens (even if earlier refetches changed the
working payload) and the session state is untouched. -/
theorem assert_claims_missing_reason_keyerror (regen : Gateway)
    (s : SessionState) (vs1 vs2 : List ValidatorModel) (v : ValidatorModel)
    (w1 : Payload) (e1 : List ClaimValidationError)
    (hrun : runValidators s.userId vs1 s.accessTokenPayload [] =
      Except.ok (w1, e1))
    (hval : ∀ p, v.validate p = ⟨some false, none⟩) :
    (assert_claims regen s (vs1 ++ v :: vs2)).err =
      some (SessionError.keyError "reason") ∧
    (assert_claims regen s (vs1 ++ v :: vs2)).state = s ∧
    (assert_claims regen s (vs1 ++ v :: vs2)).calls = [] := by
  have hrunAll : runValidators s.userId (vs1 ++ v :: vs2)
      s.accessTokenPayload [] =
      Except.error (SessionError.keyError "reason") := by
    rw [runValidators_append, hrun]
    simp only [runValidators, processValidator, hval, isTruthy]
    rfl
  unfold assert_claims
  rw [hrunAll]
  exact ⟨rfl, rfl, rfl⟩

/-- Witness for C10: session `{"sub": "u1"}` with the passing validator
`vOk` before and after the reason-less failing validator `vNoReason`. -/
theorem assert_claims_missing_reason_witness :
    runValidators sBase.userId [vOk] sBase.accessTokenPayload [] =
      Except.ok (sBase.accessTokenPayload, []) ∧
    (∀ p, vNoReason.validate p = ⟨some false, none⟩) ∧
    ((assert_claims regenEcho sBase ([vOk] ++ vNoReason :: [vOk])).err =
      some (SessionError.keyError "reason") ∧
    (assert_claims regenEcho sBase ([vOk] ++ vNoReason :: [vOk])).state =
      sBase ∧
    (assert_claims regenEcho sBase ([vOk] ++ vNoReason :: [vOk])).calls =
      []) :=
  ⟨rfl, fun _ => rfl,
    assert_claims_missing_reason_keyerror regenEcho sBase [vOk] [vOk]
      vNoReason sBase.accessTokenPayload [] rfl (fun _ => rfl)⟩

end SupertokensSession
